import Mathlib

/-!
Verification development for the tf-gatekeeper repository.

Shallow embedding of the decision-relevant parts of the source:
- `utils/blast_radius.py` and `phases/phase1_ingest.py` (blast-radius classifier),
- `phases/phase2_opa.py` (`PolicyValidator.should_block`),
- `phases/phase3_context.py` (temporal risk, drift detection),
- `cli.py` (`validate` command: decision aggregation and exit codes),
- `gatekeeper.py` (legacy analyzer: change filtering and exit behaviour).

Each definition mirrors one source function over the already-parsed plan data
(JSON parsing, subprocess calls and printing are outside the embedding; the
pure data transformations and decisions they drive are embedded in full).
-/

/-- Blast radius severity levels (`utils/blast_radius.py`, `BlastRadiusLevel`). -/
inductive BlastRadiusLevel
  | green
  | yellow
  | red
deriving DecidableEq, Repr

/-- A resource change entry of a Terraform plan's `resource_changes` array,
restricted to the fields the gate reads: `address`, `type` and
`change.actions` (a list of action strings). -/
structure ResourceChange where
  address : String
  type : String
  actions : List String
deriving DecidableEq, Repr

/-- Blast radius thresholds (config keys `blast_radius.thresholds`); the
source default is `green=5, yellow=20, red=50`. -/
structure Thresholds where
  green : Nat
  yellow : Nat
  red : Nat
deriving DecidableEq, Repr

/-- Default thresholds used when no configuration is supplied. -/
def defaultThresholds : Thresholds := ⟨5, 20, 50⟩

/-- Blast radius calculation result (`utils/blast_radius.py`, `BlastRadius`). -/
structure BlastRadius where
  level : BlastRadiusLevel
  total_resources : Nat
  create_count : Nat
  update_count : Nat
  delete_count : Nat
  replace_count : Nat
  critical_resources : List String
deriving DecidableEq, Repr

/-- A change counts as a replace when its actions contain both create and
delete (first branch of the action-counting chain in both classifiers). -/
def isReplaceChange (c : ResourceChange) : Bool :=
  decide ("create" ∈ c.actions ∧ "delete" ∈ c.actions)

/-- Second branch of the chain: create in actions, but not the replace case. -/
def isCreateChange (c : ResourceChange) : Bool :=
  decide ("create" ∈ c.actions ∧ "delete" ∉ c.actions)

/-- Third branch of the chain: delete in actions, but not the replace case. -/
def isDeleteChange (c : ResourceChange) : Bool :=
  decide ("delete" ∈ c.actions ∧ "create" ∉ c.actions)

/-- Fourth branch of the chain: update in actions and none of the earlier
branches taken. -/
def isUpdateChange (c : ResourceChange) : Bool :=
  decide ("update" ∈ c.actions ∧ "create" ∉ c.actions ∧ "delete" ∉ c.actions)

/-- Critical-resource tracking condition shared by both classifiers: the
resource type is in the given critical set and the actions contain delete or
replace (`if any(a in actions for a in ["delete", "replace"])`). -/
def isCriticalAffected (criticalTypes : List String) (c : ResourceChange) : Bool :=
  decide (c.type ∈ criticalTypes ∧ ("delete" ∈ c.actions ∨ "replace" ∈ c.actions))

/-- Critical/stateful resource types of `utils/blast_radius.py`
(`CRITICAL_RESOURCE_TYPES`, a 20-element set covering aws, azurerm and
google types); membership is all that the code uses, so a list models the
Python set. -/
def CRITICAL_RESOURCE_TYPES : List String :=
  [ "aws_db_instance"
  , "aws_rds_cluster"
  , "aws_kms_key"
  , "aws_s3_bucket"
  , "aws_dynamodb_table"
  , "aws_elasticache_cluster"
  , "aws_redshift_cluster"
  , "aws_mq_broker"
  , "aws_docdb_cluster"
  , "aws_neptune_cluster"
  , "aws_memorydb_cluster"
  , "aws_qldb_ledger"
  , "azurerm_sql_database"
  , "azurerm_sql_server"
  , "azurerm_storage_account"
  , "azurerm_key_vault"
  , "azurerm_cosmosdb_account"
  , "google_sql_database_instance"
  , "google_storage_bucket"
  , "google_kms_key_ring"
  ]

/-- Critical/stateful resource types of `phases/phase1_ingest.py`
(`PlanIngestor.CRITICAL_RESOURCE_TYPES`, a 12-element set of aws types only). -/
def PlanIngestor.CRITICAL_RESOURCE_TYPES : List String :=
  [ "aws_db_instance"
  , "aws_rds_cluster"
  , "aws_kms_key"
  , "aws_s3_bucket"
  , "aws_dynamodb_table"
  , "aws_elasticache_cluster"
  , "aws_redshift_cluster"
  , "aws_mq_broker"
  , "aws_docdb_cluster"
  , "aws_neptune_cluster"
  , "aws_memorydb_cluster"
  , "aws_qldb_ledger"
  ]

/-- The eight resource types present in the utils critical set but absent
from the `PlanIngestor` one. -/
def EXTRA_CRITICAL_TYPES : List String :=
  [ "azurerm_sql_database"
  , "azurerm_sql_server"
  , "azurerm_storage_account"
  , "azurerm_key_vault"
  , "azurerm_cosmosdb_account"
  , "google_sql_database_instance"
  , "google_storage_bucket"
  , "google_kms_key_ring"
  ]

/-- The utils critical set is the `PlanIngestor` one extended by the azurerm
and google types. -/
theorem critical_types_split :
    CRITICAL_RESOURCE_TYPES = PlanIngestor.CRITICAL_RESOURCE_TYPES ++ EXTRA_CRITICAL_TYPES := rfl

/-- Level decision shared by both classifiers (`utils/blast_radius.py`
lines 107-115, `phases/phase1_ingest.py` lines 129-141): RED if the total
reaches the red threshold, or more than 5 destructive changes, or any
critical resource; else YELLOW if the total reaches the yellow threshold or
any destructive change; else GREEN. -/
def decideLevel (thresholds : Thresholds) (total_resources destructive_count : Nat)
    (critical_resources : List String) : BlastRadiusLevel :=
  if thresholds.red ≤ total_resources ∨ 5 < destructive_count ∨
      0 < critical_resources.length then
    BlastRadiusLevel.red
  else if thresholds.yellow ≤ total_resources ∨ 0 < destructive_count then
    BlastRadiusLevel.yellow
  else
    BlastRadiusLevel.green

/-- The list-based classifier `calculate_blast_radius` of
`utils/blast_radius.py` (lines 64-125): the counting loop is rendered as
filters over the change list (the loop increments exactly one counter per
change according to the if/elif chain, and appends the address of every
critical-affected change in order). -/
def calculate_blast_radius (resource_changes : List ResourceChange)
    (thresholds : Thresholds) : BlastRadius :=
  let total_resources := resource_changes.length
  let create_count := (resource_changes.filter isCreateChange).length
  let update_count := (resource_changes.filter isUpdateChange).length
  let delete_count := (resource_changes.filter isDeleteChange).length
  let replace_count := (resource_changes.filter isReplaceChange).length
  let critical_resources :=
    (resource_changes.filter (isCriticalAffected CRITICAL_RESOURCE_TYPES)).map
      ResourceChange.address
  let destructive_count := delete_count + replace_count
  { level := decideLevel thresholds total_resources destructive_count critical_resources
  , total_resources := total_resources
  , create_count := create_count
  , update_count := update_count
  , delete_count := delete_count
  , replace_count := replace_count
  , critical_resources := critical_resources }

/-- The streaming classifier `PlanIngestor.calculate_blast_radius` of
`phases/phase1_ingest.py` (lines 91-151): identical per-change processing
over the streamed `resource_changes` items (here the already-streamed list),
except that it consults the class-level 12-element critical set. -/
def PlanIngestor.calculate_blast_radius (resource_changes : List ResourceChange)
    (thresholds : Thresholds) : BlastRadius :=
  let total_resources := resource_changes.length
  let create_count := (resource_changes.filter isCreateChange).length
  let update_count := (resource_changes.filter isUpdateChange).length
  let delete_count := (resource_changes.filter isDeleteChange).length
  let replace_count := (resource_changes.filter isReplaceChange).length
  let critical_resources :=
    (resource_changes.filter (isCriticalAffected PlanIngestor.CRITICAL_RESOURCE_TYPES)).map
      ResourceChange.address
  let destructive_count := delete_count + replace_count
  { level := decideLevel thresholds total_resources destructive_count critical_resources
  , total_resources := total_resources
  , create_count := create_count
  , update_count := update_count
  , delete_count := delete_count
  , replace_count := replace_count
  , critical_resources := critical_resources }

/-- `PlanIngestor.extract_resource_changes` (`phases/phase1_ingest.py`
lines 77-89) collects every streamed element of the plan's
`resource_changes` array, in order, with no filtering; over the parsed
array it is the identity. -/
def PlanIngestor.extract_resource_changes
    (resource_changes : List ResourceChange) : List ResourceChange :=
  resource_changes

/-- The legacy `TerraformGatekeeper.filter_changes` (`gatekeeper.py`
lines 84-98): keeps exactly the changes whose actions include delete or
update (over the plan's `resource_changes` array; a missing array yields
the empty list, modelled by the empty input). -/
def filter_changes (resource_changes : List ResourceChange) : List ResourceChange :=
  resource_changes.filter (fun c => decide ("delete" ∈ c.actions ∨ "update" ∈ c.actions))

/-- Helper for Python's substring operator: does `needle` occur as a
contiguous run inside the character list? -/
def subOccurs (needle : List Char) : List Char → Bool
  | [] => needle.isEmpty
  | c :: rest => needle.isPrefixOf (c :: rest) || subOccurs needle rest

/-- Python's `needle in haystack` on strings. -/
def pyIn (needle haystack : String) : Bool :=
  subOccurs needle.toList haystack.toList

/-- Exit behaviour of `TerraformGatekeeper.print_results` (`gatekeeper.py`
lines 266-320), as a function of the recorded risk levels, the optional
commit message and the intent-analysis result string. With no risks the
method returns without exiting (exit 0 overall). Otherwise
`critical_risks_found` holds exactly when a CRITICAL-level risk was
recorded by `analyze_plan`; when a commit message is present and the intent
result contains "MISMATCH", the flag is forced on (lines 301-303); the run
exits 1 exactly when the final flag is set (lines 316-318). -/
def gatekeeperOutcome (riskLevels : List String) (commitMessage : Option String)
    (intentResult : String) : Nat :=
  if riskLevels = [] then 0
  else
    let critical_risks_found := decide ("CRITICAL" ∈ riskLevels)
    let critical_risks_found :=
      match commitMessage with
      | some _ => critical_risks_found || pyIn "MISMATCH" intentResult
      | none => critical_risks_found
    if critical_risks_found then 1 else 0

/-- Validation results consumed by `PolicyValidator.should_block`
(`phases/phase2_opa.py`): the `deny` message list and the `strict_mode`
flag stored into the results dictionary by `validate`. -/
structure ValidationResults where
  deny : List String
  strict_mode : Bool
deriving DecidableEq, Repr

/-- `PolicyValidator.should_block` (`phases/phase2_opa.py` lines 110-138):
empty deny list never blocks; otherwise strict mode blocks, and non-strict
mode blocks exactly when the blast radius level string is "red". -/
def PolicyValidator.should_block (validation_results : ValidationResults)
    (blast_radius_level : String) : Bool × List String :=
  let deny_messages := validation_results.deny
  let strict_mode := validation_results.strict_mode
  if deny_messages = [] then (false, [])
  else if strict_mode then (true, deny_messages)
  else if blast_radius_level = "red" then (true, deny_messages)
  else (false, [])

/-- Risk severity levels (`phases/phase3_context.py`, `RiskLevel`). -/
inductive RiskLevel
  | LOW
  | MEDIUM
  | HIGH
  | CRITICAL
deriving DecidableEq, Repr

/-- Numeric value of a risk level (the Python enum values 1-4). -/
def RiskLevel.value : RiskLevel → Nat
  | .LOW => 1
  | .MEDIUM => 2
  | .HIGH => 3
  | .CRITICAL => 4

/-- The Python `RiskLevel(n)` enum constructor; in
`analyze_temporal_context` it is only applied to values in 1..4 (the sum is
capped at 4 and starts from a base of at least 1), where the catch-all
branch is reached exactly at 4 = CRITICAL. -/
def RiskLevel.ofValue : Nat → RiskLevel
  | 1 => .LOW
  | 2 => .MEDIUM
  | 3 => .HIGH
  | _ => .CRITICAL

/-- Risk computation of `ContextEngine.analyze_temporal_context`
(`phases/phase3_context.py` lines 113-133), over the already-determined
time factors: +1 for a weekend when weekend blocking is enabled, +1 for a
Friday afternoon, +1 for after hours, capped at CRITICAL (4). -/
def temporalRiskLevel (weekend_blocking : Bool) (base_risk : RiskLevel)
    (is_weekend is_friday_afternoon is_after_hours : Bool) : RiskLevel :=
  let risk_value := base_risk.value
  let risk_value := if weekend_blocking && is_weekend then risk_value + 1 else risk_value
  let risk_value := if is_friday_afternoon then risk_value + 1 else risk_value
  let risk_value := if is_after_hours then risk_value + 1 else risk_value
  let risk_value := min risk_value 4
  RiskLevel.ofValue risk_value

/-- A resource change of the refresh-only drift plan, with the fields
`detect_drift` reads: `address`, `change.actions`, and the `before` and
`after` attribute maps (modelled as association lists; `.get` defaults both
to the empty map, so absence is the empty list). -/
structure DriftChange where
  address : String
  actions : List String
  before : List (String × String)
  after : List (String × String)
deriving DecidableEq, Repr

/-- Drift detection result (`phases/phase3_context.py`, `DriftResult`). -/
structure DriftResult where
  has_drift : Bool
  drifted_resources : List DriftChange
  conflict_resources : List DriftChange
deriving DecidableEq, Repr

/-- Drift condition of `ContextEngine.detect_drift` (lines 185-192): the
actions contain update or no-op and the before attributes differ from the
after attributes. -/
def isDriftedChange (r : DriftChange) : Bool :=
  decide (("update" ∈ r.actions ∨ "no-op" ∈ r.actions) ∧ r.before ≠ r.after)

/-- Comparison core of `ContextEngine.detect_drift`
(`phases/phase3_context.py` lines 180-204), over the parsed refresh-only
plan changes and the current plan's resources: `drifted_resources` filters
the drift changes by `isDriftedChange`; `conflict_resources` keeps the
drifted resources whose address occurs among the current plan's addresses
(the Python set of addresses is modelled by list membership);
`has_drift` is set when any resource drifted. -/
def detect_drift (drift_changes : List DriftChange)
    (plan_resources : List ResourceChange) : DriftResult :=
  let drifted_resources := drift_changes.filter isDriftedChange
  let plan_addresses := plan_resources.map ResourceChange.address
  let conflict_resources :=
    drifted_resources.filter (fun r => decide (r.address ∈ plan_addresses))
  { has_drift := 0 < drifted_resources.length
  , drifted_resources := drifted_resources
  , conflict_resources := conflict_resources }

/-- Inputs of the decision block of the `validate` command (`cli.py`
lines 286-341): the Phase 2 deny list, the Phase 1 blast radius level, the
Phase 3 drift conflict addresses (only emptiness feeds the decision) and
the break-glass and shadow-mode flags. -/
structure AggregatorInput where
  deny : List String
  blast_level : BlastRadiusLevel
  conflict_resources : List String
  break_glass : Bool
  shadow_mode : Bool
deriving DecidableEq, Repr

/-- Signal aggregation of `cli.validate` (`cli.py` lines 288-309):
`should_block` starts false and each of the three checks - non-empty deny
list, RED blast level, non-empty drift conflicts - sets it and appends its
reason string. -/
def summarySignals (i : AggregatorInput) : Bool × List String :=
  let acc0 : Bool × List String := (false, [])
  let acc1 :=
    if 0 < i.deny.length then
      (true, acc0.2 ++ [toString i.deny.length ++ " policy violations"])
    else acc0
  let acc2 :=
    if i.blast_level = BlastRadiusLevel.red then
      (true, acc1.2 ++ ["RED blast radius level"])
    else acc1
  let acc3 :=
    if i.conflict_resources ≠ [] then
      (true, acc2.2 ++ ["Drift conflicts detected"])
    else acc2
  acc3

/-- Decision tail of `cli.validate` (`cli.py` lines 311-341): break glass
returns 42 before the shadow-mode check; shadow mode returns 0 (printing
the would-have-blocked reasons); otherwise 1 when blocking, 0 when
allowing. The computed reasons list is returned alongside the exit code. -/
def tfGateDecide (i : AggregatorInput) : Nat × List String :=
  let signals := summarySignals i
  let should_block := signals.1
  let reasons := signals.2
  if i.break_glass then (42, reasons)
  else if i.shadow_mode then (0, reasons)
  else if should_block then (1, reasons)
  else (0, reasons)

/-- One `validate` run as seen by the exit-code logic (`cli.py`
lines 133-341): Phase 1 either errors (its `except` branch) or yields the
blast level; Phase 2 either errors or yields the deny list; Phase 3 errors
are caught and replaced by an empty drift result, so only the conflict
address list remains; the Phase 4 intent result string is computed but
never read by the decision block. -/
structure PipelineRun where
  phase1 : Except String BlastRadiusLevel
  phase2 : Except String (List String)
  conflict_resources : List String
  intent_result : String
  break_glass : Bool
  shadow_mode : Bool

/-- Exit code of the `validate` command (`cli.py`): a Phase 1 exception
returns 1 (line 157); with Phase 1 successful, a Phase 2 exception returns
1 (line 187); otherwise the decision block runs on the collected signals. -/
def validateExitCode (run : PipelineRun) : Nat :=
  match run.phase1 with
  | .error _ => 1
  | .ok level =>
    match run.phase2 with
    | .error _ => 1
    | .ok deny =>
      (tfGateDecide
        { deny := deny
        , blast_level := level
        , conflict_resources := run.conflict_resources
        , break_glass := run.break_glass
        , shadow_mode := run.shadow_mode }).1

/-- C1: the final decision of an evaluated pipeline run follows the
aggregator transition rule: `should_block` holds exactly when the deny list
is non-empty, or the blast level is RED, or the drift conflict list is
non-empty; break glass yields exit 42 unconditionally, taking precedence
over shadow mode; otherwise shadow mode yields exit 0 with the
would-have-blocked reasons still populated; otherwise the exit code is 1
exactly when `should_block` holds and 0 exactly when it does not. -/
theorem claim_C1_aggregator (i : AggregatorInput) :
    ((summarySignals i).1 = true ↔
      (i.deny ≠ [] ∨ i.blast_level = BlastRadiusLevel.red ∨ i.conflict_resources ≠ []))
    ∧ (i.break_glass = true → (tfGateDecide i).1 = 42)
    ∧ (i.break_glass = false → i.shadow_mode = true →
        (tfGateDecide i).1 = 0 ∧ ((tfGateDecide i).2 ≠ [] ↔ (summarySignals i).1 = true))
    ∧ (i.break_glass = false → i.shadow_mode = false →
        ((tfGateDecide i).1 = 1 ↔ (summarySignals i).1 = true)
        ∧ ((tfGateDecide i).1 = 0 ↔ (summarySignals i).1 = false)) := by
  by_cases h1 : i.deny = [] <;> by_cases h2 : i.blast_level = BlastRadiusLevel.red <;>
    by_cases h3 : i.conflict_resources = [] <;> by_cases hb : i.break_glass <;>
    by_cases hs : i.shadow_mode <;>
    simp [summarySignals, tfGateDecide, h1, h2, h3, hb, hs, List.length_pos]

/-- Witness for C1 at concrete inputs: break glass forces exit 42 even in
shadow mode, and a plain run with a deny message exits 1. -/
theorem claim_C1_witness :
    (tfGateDecide ⟨["violation"], BlastRadiusLevel.red, [], true, true⟩).1 = 42 ∧
    (tfGateDecide ⟨["violation"], BlastRadiusLevel.green, [], false, false⟩).1 = 1 :=
  ⟨(claim_C1_aggregator _).2.1 rfl,
   ((claim_C1_aggregator _).2.2.2 rfl rfl).1.mpr (by decide)⟩

/-- C2 counterexample: with exactly 2 deny messages, non-strict
configuration, YELLOW blast radius and no drift conflicts, the `validate`
decision block exits 1 (BLOCKED), not 0 (ALLOWED) as the claim states: the
aggregator blocks on any non-empty deny list without consulting strict
mode. -/
theorem claim_C2_counterexample :
    (tfGateDecide ⟨["deny message one", "deny message two"],
        BlastRadiusLevel.yellow, [], false, false⟩).1 = 1 ∧
    (tfGateDecide ⟨["deny message one", "deny message two"],
        BlastRadiusLevel.yellow, [], false, false⟩).1 ≠ 0 := by decide

/-- C2 amended: for every run whose policy evaluation produced exactly 2
deny messages, with no drift conflicts and no override mode, the aggregated
decision is BLOCKED (exit 1) for every blast radius level - YELLOW as well
as RED - since the aggregator blocks on any non-empty deny list regardless
of strict mode. -/
theorem claim_C2_amended (deny : List String) (lvl : BlastRadiusLevel)
    (h : deny.length = 2) :
    (tfGateDecide ⟨deny, lvl, [], false, false⟩).1 = 1 := by
  by_cases h2 : lvl = BlastRadiusLevel.red <;>
    simp [tfGateDecide, summarySignals, h, h2]

/-- Witness for the amended C2 at a concrete 2-deny run. -/
theorem claim_C2_witness :
    (tfGateDecide ⟨["deny message one", "deny message two"],
        BlastRadiusLevel.yellow, [], false, false⟩).1 = 1 :=
  claim_C2_amended ["deny message one", "deny message two"] BlastRadiusLevel.yellow rfl

/-- C6: `PolicyValidator.should_block` returns `(false, [])` whenever the
deny list is empty; on a non-empty deny list it returns `(true, deny)` in
strict mode, and in non-strict mode it returns `(true, deny)` exactly when
the blast radius level is red and `(false, [])` otherwise. -/
theorem claim_C6_should_block (vr : ValidationResults) (lvl : String) :
    (vr.deny = [] → PolicyValidator.should_block vr lvl = (false, []))
    ∧ (vr.deny ≠ [] → vr.strict_mode = true →
        PolicyValidator.should_block vr lvl = (true, vr.deny))
    ∧ (vr.deny ≠ [] → vr.strict_mode = false → lvl = "red" →
        PolicyValidator.should_block vr lvl = (true, vr.deny))
    ∧ (vr.deny ≠ [] → vr.strict_mode = false → lvl ≠ "red" →
        PolicyValidator.should_block vr lvl = (false, [])) := by
  by_cases h1 : vr.deny = [] <;> by_cases h2 : vr.strict_mode <;>
    by_cases h3 : lvl = "red" <;>
    simp [PolicyValidator.should_block, h1, h2, h3]

/-- Witness for C6: a single deny message in non-strict mode blocks at red
level and does not block at yellow level. -/
theorem claim_C6_witness :
    PolicyValidator.should_block ⟨["d1"], false⟩ "red" = (true, ["d1"]) ∧
    PolicyValidator.should_block ⟨["d1"], false⟩ "yellow" = (false, []) :=
  ⟨(claim_C6_should_block _ _).2.2.1 (by decide) rfl rfl,
   (claim_C6_should_block _ _).2.2.2 (by decide) rfl (by decide)⟩

/-- C8: for every base risk level and every combination of temporal
conditions, the computed risk value is the base value plus 1 for a weekend
(only with weekend blocking enabled), plus 1 for a Friday afternoon, plus 1
for after hours, capped at CRITICAL (4); it never exceeds 4 and never drops
below the base risk. -/
theorem claim_C8_temporal :
    ∀ (base_risk : RiskLevel)
      (weekend_blocking is_weekend is_friday_afternoon is_after_hours : Bool),
      (temporalRiskLevel weekend_blocking base_risk is_weekend is_friday_afternoon
          is_after_hours).value
        = min (base_risk.value
            + (if weekend_blocking && is_weekend then 1 else 0)
            + (if is_friday_afternoon then 1 else 0)
            + (if is_after_hours then 1 else 0)) 4
      ∧ (temporalRiskLevel weekend_blocking base_risk is_weekend is_friday_afternoon
          is_after_hours).value ≤ 4
      ∧ base_risk.value ≤
          (temporalRiskLevel weekend_blocking base_risk is_weekend is_friday_afternoon
            is_after_hours).value := by
  intro base wb w f a
  cases base <;> cases wb <;> cases w <;> cases f <;> cases a <;> decide

/-- C3: the classifier's level is decided by the priority rule (first match
wins): RED when the total reaches the red threshold, or delete+replace
exceeds 5, or the critical list is non-empty; else YELLOW when the total
reaches the yellow threshold or delete+replace is positive; else GREEN.
In particular any change of a critical type whose actions include delete
forces RED regardless of the total. -/
theorem claim_C3_classifier (changes : List ResourceChange) (t : Thresholds) :
    ((calculate_blast_radius changes t).level =
      (if t.red ≤ (calculate_blast_radius changes t).total_resources
          ∨ 5 < (calculate_blast_radius changes t).delete_count
              + (calculate_blast_radius changes t).replace_count
          ∨ (calculate_blast_radius changes t).critical_resources ≠ [] then
        BlastRadiusLevel.red
      else if t.yellow ≤ (calculate_blast_radius changes t).total_resources
          ∨ 0 < (calculate_blast_radius changes t).delete_count
              + (calculate_blast_radius changes t).replace_count then
        BlastRadiusLevel.yellow
      else BlastRadiusLevel.green))
    ∧ (∀ c ∈ changes, c.type ∈ CRITICAL_RESOURCE_TYPES → "delete" ∈ c.actions →
        (calculate_blast_radius changes t).level = BlastRadiusLevel.red) := by
  constructor
  · simp only [calculate_blast_radius, decideLevel, List.length_pos]
  · intro c hc htype hdel
    have hfilter : c ∈ changes.filter (isCriticalAffected CRITICAL_RESOURCE_TYPES) :=
      List.mem_filter.mpr ⟨hc, by
        simp only [isCriticalAffected, decide_eq_true_eq]
        exact ⟨htype, Or.inl hdel⟩⟩
    have hmem := List.mem_map_of_mem ResourceChange.address hfilter
    have hcond : t.red ≤ changes.length
        ∨ 5 < (changes.filter isDeleteChange).length + (changes.filter isReplaceChange).length
        ∨ 0 < ((changes.filter (isCriticalAffected CRITICAL_RESOURCE_TYPES)).map
            ResourceChange.address).length :=
      Or.inr (Or.inr (List.length_pos.mpr (List.ne_nil_of_mem hmem)))
    show decideLevel t changes.length _ _ = BlastRadiusLevel.red
    unfold decideLevel
    rw [if_pos hcond]

/-- Witness for C3: a single deletion of a critical-type database resource
is classified RED even though the plan has a single resource. -/
theorem claim_C3_witness :
    (calculate_blast_radius [⟨"aws_db_instance.main", "aws_db_instance", ["delete"]⟩]
        defaultThresholds).level = BlastRadiusLevel.red :=
  (claim_C3_classifier [⟨"aws_db_instance.main", "aws_db_instance", ["delete"]⟩]
      defaultThresholds).2
    ⟨"aws_db_instance.main", "aws_db_instance", ["delete"]⟩
    (by decide) (by decide) (by decide)

/-- C7: a refreshed resource is drifted exactly when its actions contain
update or no-op and its before value differs from its after value; a
drifted resource is a conflict exactly when its address appears among the
current plan's addresses; conflicts are a subset of the drifted resources;
a drifted resource absent from the current plan is never a conflict; and
`has_drift` holds exactly when the drifted list is non-empty. -/
theorem claim_C7_drift (drift_changes : List DriftChange)
    (plan_resources : List ResourceChange) :
    (∀ r, r ∈ (detect_drift drift_changes plan_resources).drifted_resources ↔
        (r ∈ drift_changes ∧ (("update" ∈ r.actions ∨ "no-op" ∈ r.actions)
          ∧ r.before ≠ r.after)))
    ∧ (∀ r, r ∈ (detect_drift drift_changes plan_resources).conflict_resources ↔
        (r ∈ (detect_drift drift_changes plan_resources).drifted_resources ∧
          r.address ∈ plan_resources.map ResourceChange.address))
    ∧ (∀ r, r ∈ (detect_drift drift_changes plan_resources).conflict_resources →
        r ∈ (detect_drift drift_changes plan_resources).drifted_resources)
    ∧ (∀ r, r ∈ (detect_drift drift_changes plan_resources).drifted_resources →
        r.address ∉ plan_resources.map ResourceChange.address →
        r ∉ (detect_drift drift_changes plan_resources).conflict_resources)
    ∧ ((detect_drift drift_changes plan_resources).has_drift = true ↔
        (detect_drift drift_changes plan_resources).drifted_resources ≠ []) := by
  have hdrift : ∀ r, r ∈ (detect_drift drift_changes plan_resources).drifted_resources ↔
      (r ∈ drift_changes ∧ (("update" ∈ r.actions ∨ "no-op" ∈ r.actions)
        ∧ r.before ≠ r.after)) := by
    intro r
    simp [detect_drift, List.mem_filter, isDriftedChange]
  have hconf : ∀ r, r ∈ (detect_drift drift_changes plan_resources).conflict_resources ↔
      (r ∈ (detect_drift drift_changes plan_resources).drifted_resources ∧
        r.address ∈ plan_resources.map ResourceChange.address) := by
    intro r
    simp [detect_drift, List.mem_filter]
    tauto
  refine ⟨hdrift, hconf, ?_, ?_, ?_⟩
  · intro r hr
    exact ((hconf r).mp hr).1
  · intro r _ haddr hcontra
    exact haddr ((hconf r).mp hcontra).2
  · simp [detect_drift, List.length_pos]

/-- Witness for C7: one drifted-and-conflicting resource and one drifted
resource absent from the plan. -/
theorem claim_C7_witness :
    (detect_drift
        [⟨"aws_s3_bucket.logs", ["update"], [("acl", "private")], [("acl", "public")]⟩,
         ⟨"aws_s3_bucket.other", ["no-op"], [("acl", "a")], [("acl", "b")]⟩]
        [⟨"aws_s3_bucket.logs", "aws_s3_bucket", ["update"]⟩]).has_drift = true ∧
    ⟨"aws_s3_bucket.other", ["no-op"], [("acl", "a")], [("acl", "b")]⟩ ∉
      (detect_drift
        [⟨"aws_s3_bucket.logs", ["update"], [("acl", "private")], [("acl", "public")]⟩,
         ⟨"aws_s3_bucket.other", ["no-op"], [("acl", "a")], [("acl", "b")]⟩]
        [⟨"aws_s3_bucket.logs", "aws_s3_bucket", ["update"]⟩]).conflict_resources :=
  ⟨(claim_C7_drift _ _).2.2.2.2.mpr (by decide),
   (claim_C7_drift _ _).2.2.2.1 _ (by decide) (by decide)⟩

/-- C9 counterexample: ingestion carries a pure no-op change forward
(`extract_resource_changes` performs no filtering), and the legacy
`filter_changes` drops a create-only change; both contradict the claimed
"excludes exactly no-op/read, carries create/update/delete forward" view. -/
theorem claim_C9_counterexample :
    (⟨"null_resource.noop", "null_resource", ["no-op"]⟩ : ResourceChange) ∈
      PlanIngestor.extract_resource_changes
        [⟨"null_resource.noop", "null_resource", ["no-op"]⟩,
         ⟨"aws_instance.web", "aws_instance", ["create"]⟩] ∧
    filter_changes
        [⟨"null_resource.noop", "null_resource", ["no-op"]⟩,
         ⟨"aws_instance.web", "aws_instance", ["create"]⟩] = [] := by decide

/-- C9 amended: ingestion applies no action-based filtering at all -
`extract_resource_changes` returns every change, pure no-op and read
changes included; the only action-based filter in the repository is the
legacy `filter_changes`, which keeps exactly the changes whose actions
include delete or update (so it also excludes create-only changes). -/
theorem claim_C9_amended :
    (∀ changes : List ResourceChange,
      PlanIngestor.extract_resource_changes changes = changes)
    ∧ (∀ (changes : List ResourceChange) (c : ResourceChange),
        c ∈ filter_changes changes ↔
          (c ∈ changes ∧ ("delete" ∈ c.actions ∨ "update" ∈ c.actions))) := by
  constructor
  · intro changes
    rfl
  · intro changes c
    simp [filter_changes, List.mem_filter]

/-- C10 counterexample: on a single deletion of an `azurerm_sql_database`
resource with the default thresholds, the list-based classifier reports RED
with a critical resource while the streaming classifier reports YELLOW with
none - the two implementations disagree on which types count as critical. -/
theorem claim_C10_counterexample :
    calculate_blast_radius
        [⟨"azurerm_sql_database.main", "azurerm_sql_database", ["delete"]⟩]
        defaultThresholds ≠
      PlanIngestor.calculate_blast_radius
        [⟨"azurerm_sql_database.main", "azurerm_sql_database", ["delete"]⟩]
        defaultThresholds ∧
    (calculate_blast_radius
        [⟨"azurerm_sql_database.main", "azurerm_sql_database", ["delete"]⟩]
        defaultThresholds).level = BlastRadiusLevel.red ∧
    (PlanIngestor.calculate_blast_radius
        [⟨"azurerm_sql_database.main", "azurerm_sql_database", ["delete"]⟩]
        defaultThresholds).level = BlastRadiusLevel.yellow ∧
    (calculate_blast_radius
        [⟨"azurerm_sql_database.main", "azurerm_sql_database", ["delete"]⟩]
        defaultThresholds).critical_resources = ["azurerm_sql_database.main"] ∧
    (PlanIngestor.calculate_blast_radius
        [⟨"azurerm_sql_database.main", "azurerm_sql_database", ["delete"]⟩]
        defaultThresholds).critical_resources = [] := by decide

/-- C10 amended: the two classifiers always agree on the total and the
create/update/delete/replace counts; and whenever no change has a type
among the eight azurerm/google types present only in the utils critical
set, they produce identical results. They disagree on which types count as
critical exactly on those eight types. -/
theorem claim_C10_amended (changes : List ResourceChange) (t : Thresholds) :
    ((calculate_blast_radius changes t).total_resources
        = (PlanIngestor.calculate_blast_radius changes t).total_resources
      ∧ (calculate_blast_radius changes t).create_count
        = (PlanIngestor.calculate_blast_radius changes t).create_count
      ∧ (calculate_blast_radius changes t).update_count
        = (PlanIngestor.calculate_blast_radius changes t).update_count
      ∧ (calculate_blast_radius changes t).delete_count
        = (PlanIngestor.calculate_blast_radius changes t).delete_count
      ∧ (calculate_blast_radius changes t).replace_count
        = (PlanIngestor.calculate_blast_radius changes t).replace_count)
    ∧ ((∀ c ∈ changes, c.type ∉ EXTRA_CRITICAL_TYPES) →
        calculate_blast_radius changes t = PlanIngestor.calculate_blast_radius changes t) := by
  constructor
  · exact ⟨rfl, rfl, rfl, rfl, rfl⟩
  · intro h
    have hf : changes.filter (isCriticalAffected CRITICAL_RESOURCE_TYPES)
        = changes.filter (isCriticalAffected PlanIngestor.CRITICAL_RESOURCE_TYPES) := by
      apply List.filter_congr
      intro c hc
      have hx : c.type ∉ EXTRA_CRITICAL_TYPES := h c hc
      unfold isCriticalAffected
      apply decide_eq_decide.mpr
      rw [critical_types_split]
      simp [List.mem_append, hx]
    simp only [calculate_blast_radius, PlanIngestor.calculate_blast_radius, hf]

/-- Witness for the amended C10: the two classifiers agree on a plan that
deletes an aws bucket (no azurerm/google type involved). -/
theorem claim_C10_witness :
    calculate_blast_radius [⟨"aws_s3_bucket.logs", "aws_s3_bucket", ["delete"]⟩]
        defaultThresholds
      = PlanIngestor.calculate_blast_radius
          [⟨"aws_s3_bucket.logs", "aws_s3_bucket", ["delete"]⟩] defaultThresholds :=
  (claim_C10_amended _ _).2 (by decide)

/-- C4 counterexample: two legacy-gatekeeper runs identical except for the
intent-analysis result (same single non-critical risk, same commit
message) resolve differently - the MISMATCH run exits 1 although no other
blocking signal is present, the MATCH run proceeds. -/
theorem claim_C4_counterexample :
    gatekeeperOutcome ["SECURITY RISK"] (some "Update tags")
        "MISMATCH - plan deletes a database" = 1 ∧
    gatekeeperOutcome ["SECURITY RISK"] (some "Update tags") "MATCH" = 0 := by decide

/-- C4 amended: in the tf-gate pipeline (`cli.validate`) the exit code is
independent of the intent verdict - two runs differing only in the intent
result are decided identically; in the legacy `gatekeeper.py`, however,
when risks are present but none is CRITICAL, an intent result containing
MISMATCH alone flips the run to a failure exit, and without MISMATCH the
run proceeds. -/
theorem claim_C4_amended :
    (∀ (run : PipelineRun) (intent1 intent2 : String),
        validateExitCode { run with intent_result := intent1 }
          = validateExitCode { run with intent_result := intent2 })
    ∧ (∀ (riskLevels : List String) (msg intentResult : String),
        riskLevels ≠ [] → "CRITICAL" ∉ riskLevels →
        ((pyIn "MISMATCH" intentResult = true →
            gatekeeperOutcome riskLevels (some msg) intentResult = 1)
         ∧ (pyIn "MISMATCH" intentResult = false →
            gatekeeperOutcome riskLevels (some msg) intentResult = 0))) := by
  constructor
  · intro run intent1 intent2
    rfl
  · intro riskLevels msg intentResult hne hcrit
    constructor <;> intro hm <;> simp [gatekeeperOutcome, hne, hcrit, hm]

/-- Witness for the amended C4: a lone WARNING risk plus a MISMATCH intent
result exits 1 in the legacy gatekeeper. -/
theorem claim_C4_witness :
    gatekeeperOutcome ["WARNING"] (some "update tags")
        "MISMATCH: deletes database" = 1 :=
  (claim_C4_amended.2 ["WARNING"] "update tags" "MISMATCH: deletes database"
    (by decide) (by decide)).1 (by decide)

/-- C5 counterexample: a run whose Phase 1 ingestion raises and a run whose
Phase 2 policy evaluation raises both return exit status 1 - the same code
the pipeline uses for a legitimate blocked decision, not a code distinct
from 0, 1 and 42 as claimed. -/
theorem claim_C5_counterexample :
    validateExitCode
        ⟨Except.error "Phase 1 Failed: Expecting value", Except.ok [], [], "",
          false, false⟩ = 1 ∧
    validateExitCode
        ⟨Except.ok BlastRadiusLevel.green,
          Except.error "Phase 2 Failed: Policy validation failed", [], "",
          false, false⟩ = 1 := by decide

/-- C5 amended: an ingest or policy-evaluation failure returns exit status
1 - nonzero and distinct from the break-glass code 42 and the allowed code
0, but coinciding with the blocked code 1, so errors are not
distinguishable from a blocked decision by exit status. -/
theorem claim_C5_amended (run : PipelineRun)
    (h : (∃ e, run.phase1 = Except.error e) ∨ (∃ e, run.phase2 = Except.error e)) :
    validateExitCode run = 1 ∧ validateExitCode run ≠ 0 ∧ validateExitCode run ≠ 42 := by
  have h1 : validateExitCode run = 1 := by
    rcases h with ⟨e, he⟩ | ⟨e, he⟩
    · simp [validateExitCode, he]
    · cases hp : run.phase1 with
      | error e1 => simp [validateExitCode, hp]
      | ok lvl => simp [validateExitCode, hp, he]
  exact ⟨h1, by simp [h1], by simp [h1]⟩

/-- Witness for the amended C5 at a concrete failed-ingest run. -/
theorem claim_C5_witness :
    validateExitCode ⟨Except.error "No plan file specified", Except.ok [], [], "",
        false, false⟩ = 1 ∧
    validateExitCode ⟨Except.error "No plan file specified", Except.ok [], [], "",
        false, false⟩ ≠ 0 ∧
    validateExitCode ⟨Except.error "No plan file specified", Except.ok [], [], "",
        false, false⟩ ≠ 42 :=
  claim_C5_amended _ (Or.inl ⟨"No plan file specified", rfl⟩)

/-- Witness for C8: with HIGH base risk and all three escalations active,
the temporal risk caps at CRITICAL (4). -/
theorem claim_C8_witness :
    (temporalRiskLevel true RiskLevel.HIGH true true true).value = 4 :=
  (claim_C8_temporal RiskLevel.HIGH true true true true).1.trans (by decide)

/-- Witness for the amended C9 on a one-change plan. -/
theorem claim_C9_witness :
    PlanIngestor.extract_resource_changes
        [⟨"aws_instance.web", "aws_instance", ["create"]⟩]
      = [⟨"aws_instance.web", "aws_instance", ["create"]⟩] :=
  claim_C9_amended.1 _
